import Mathlib

/-!
Verification development for the Signify animation playback and
interpolation engine (`main.py`, class `SignLanguagePlayer`).

The embedding models:
  * a landmark point as a triple of rational coordinates (the source
    stores 3-element numeric lists; exact rationals stand in for the
    floating-point numbers, so "up to floating rounding" becomes exact
    equality);
  * a frame as an association list from body-part tag strings to point
    lists, mirroring the Python dict with `dict.get(key, [])` access;
  * `calculate_smooth_frame` (main.py lines 31-67), the inline
    transition-bridge loop of `play_sentence` (lines 92-99, extracted
    here as `generate_bridge`), and the playback scheduler
    `play_sentence` (lines 69-109) with its per-playback-frame quit
    poll (`cv2.waitKey(33)`, line 108) modelled as a Boolean signal
    indexed by the number of frames emitted so far.
-/

/-- One landmark point: x, y, z coordinates (main.py works with
3-element coordinate lists, built at lines 59-62). -/
structure Point where
  x : ℚ
  y : ℚ
  z : ℚ
deriving DecidableEq, Repr

/-- The lerp applied to each of the three coordinates of a point pair
(main.py lines 59-62: `point_a[i] + (point_b[i] - point_a[i]) * factor`
for i in range(3)). -/
def lerpPoint (a b : Point) (t : ℚ) : Point :=
  ⟨a.x + (b.x - a.x) * t, a.y + (b.y - a.y) * t, a.z + (b.z - a.z) * t⟩

/-- A frame: a Python dict from tag strings to point lists, modelled as
an association list (keys unique in practice; lookup takes the first
match, as a dict with unique keys would). -/
abbrev Frame := List (String × List Point)

/-- Dictionary access `frame.get(key, [])` of main.py lines 46-47: the
point list of a tag, or `[]` when the tag is absent. -/
def frameGet (fr : Frame) (k : String) : List Point :=
  match fr.find? (fun p => p.1 == k) with
  | some p => p.2
  | none => []

/-- The fixed tag list iterated by `calculate_smooth_frame`
(main.py line 44: `for key in ["f", "p", "l", "r"]`). -/
def bodyTags : List String := ["f", "p", "l", "r"]

/-- main.py lines 31-67, `calculate_smooth_frame`: per tag, if either
side's point list is empty the result snaps to the non-empty side
(lines 50-52); otherwise the two lists are zipped and each point pair
is lerped (lines 56-65). -/
def calculate_smooth_frame (start_frame end_frame : Frame)
    (interpolation_factor : ℚ) : Frame :=
  bodyTags.map (fun key =>
    (key,
      let points_a := frameGet start_frame key
      let points_b := frameGet end_frame key
      if points_a.isEmpty || points_b.isEmpty then
        (if points_b.isEmpty then points_a else points_b)
      else
        (points_a.zip points_b).map
          (fun pq => lerpPoint pq.1 pq.2 interpolation_factor)))

/-- The inline transition loop of `play_sentence` (main.py lines
94-98): `for i in range(1, 11): calculate_smooth_frame(last, first,
i / 10)`. -/
def generate_bridge (from_frame to_frame : Frame) : List Frame :=
  (List.range' 1 10).map
    (fun i => calculate_smooth_frame from_frame to_frame ((i : ℚ) / 10))

/-- How a play session ends: the playlist loop finishes (`done`), the
quit key is observed at a poll and `play_sentence` returns early
(`cancelled`, main.py lines 108-109), or `animation_sequence[0]` is
taken on an empty sequence and raises IndexError (`crash`, main.py
line 93). -/
inductive PlayOutcome where
  | done
  | cancelled
  | crash
deriving DecidableEq, Repr

/-- Result of the playback loop over one word's frames (main.py lines
103-109): the frames rendered with their label, the final
`last_frame_data`, the emission clock after the loop, and whether the
quit check fired. -/
structure ClipResult where
  emissions : List (Frame × String)
  lastFrame : Option Frame
  time : ℕ
  cancelled : Bool
deriving DecidableEq, Repr

/-- Result of a play session: every frame rendered (with its UI
label), the diagnostics printed, and how the session ended. -/
structure PlayResult where
  emissions : List (Frame × String)
  errors : List String
  outcome : PlayOutcome
deriving DecidableEq, Repr

/-- The diagnostic printed for a word with no asset file
(main.py line 82). -/
def notFoundMsg (word : String) : String :=
  "[ERROR] File not found: assets/" ++ word ++ ".json. Skipping."

/-- The Python call `word.upper()` (main.py line 104), modelled over
the character list of the string. -/
def strUpper (s : String) : String :=
  ⟨s.data.map Char.toUpper⟩

/-- The playback loop of `play_sentence` (main.py lines 103-109): each
frame is rendered with the word's label, then saved as
`last_frame_data`, then the quit key is polled (`cv2.waitKey(33)`); a
quit observed there returns immediately. `quit n` is the external
signal sampled by the poll that follows the n-th emitted frame of the
session (transition frames occupy emission indices but are never
polled). -/
def playClip (quit : ℕ → Bool) (label : String) :
    List Frame → Option Frame → ℕ → ClipResult
  | [], last, n => ⟨[], last, n, false⟩
  | frame_data :: rest, _, n =>
    if quit n then
      ⟨[(frame_data, label)], some frame_data, n + 1, true⟩
    else
      let r := playClip quit label rest (some frame_data) (n + 1)
      ⟨(frame_data, label) :: r.emissions, r.lastFrame, r.time, r.cancelled⟩

/-- The word loop of `play_sentence` (main.py lines 77-109). `store`
abstracts `os.path.exists` + `json.load` on `assets/{word}.json`:
`none` means the file is missing (line 81), `some seq` the decoded
frame list. A missing word prints a diagnostic and is skipped (lines
81-83). When a previous frame exists, `animation_sequence[0]` is taken
(line 93) — an IndexError (crash) on an empty sequence — and the ten
bridge frames are rendered with label "Transitioning..." with no quit
poll (lines 94-99); then the word's own frames are played (lines
103-109). -/
def playWords (store : String → Option (List Frame)) (quit : ℕ → Bool) :
    List String → Option Frame → ℕ → PlayResult
  | [], _, _ => ⟨[], [], .done⟩
  | word :: rest, last, n =>
    match store word with
    | none =>
      let r := playWords store quit rest last n
      ⟨r.emissions, notFoundMsg word :: r.errors, r.outcome⟩
    | some animation_sequence =>
      match last with
      | none =>
        let c := playClip quit ("Signing: " ++ strUpper word)
          animation_sequence none n
        if c.cancelled then ⟨c.emissions, [], .cancelled⟩
        else
          let r := playWords store quit rest c.lastFrame c.time
          ⟨c.emissions ++ r.emissions, r.errors, r.outcome⟩
      | some last_frame_data =>
        match animation_sequence with
        | [] => ⟨[], [], .crash⟩
        | first_frame :: _ =>
          let bridge := (generate_bridge last_frame_data first_frame).map
            (fun fr => (fr, "Transitioning..."))
          let c := playClip quit ("Signing: " ++ strUpper word)
            animation_sequence (some last_frame_data) (n + 10)
          if c.cancelled then ⟨bridge ++ c.emissions, [], .cancelled⟩
          else
            let r := playWords store quit rest c.lastFrame c.time
            ⟨bridge ++ c.emissions ++ r.emissions, r.errors, r.outcome⟩

/-- The whole `play_sentence` entry point (main.py lines 69-109): the
session starts with `last_frame_data = None` and emission clock 0. -/
def play_sentence (store : String → Option (List Frame))
    (quit : ℕ → Bool) (words_list : List String) : PlayResult :=
  playWords store quit words_list none 0

/-! ## Concrete fixtures for counterexamples and end-to-end runs -/

/-- A frame whose face tag holds one point, all other tags empty. -/
def frameC3 : Frame :=
  [("f", [Point.mk 1 2 3]), ("p", []), ("l", []), ("r", [])]

/-- One-point frames used by the scheduler fixtures. -/
def fa : Frame := [("p", [Point.mk 0 0 0])]

/-- Second fixture frame. -/
def fb1 : Frame := [("p", [Point.mk 1 0 0])]

/-- Third fixture frame. -/
def fb2 : Frame := [("p", [Point.mk 2 0 0])]

/-- Store for the cancellation run: word "a" has one frame, word "b"
has two. -/
def storeC4 : String → Option (List Frame) := fun w =>
  if w = "a" then some [fa] else if w = "b" then some [fb1, fb2] else none

/-- Quit signal raised from emission index 1 onward — i.e. during the
first transition frame of the "a" → "b" bridge. -/
def quitC4 : ℕ → Bool := fun n => decide (1 ≤ n)

/-- Store for the empty-sequence run: "w1" has one frame, "w2" decodes
to zero frames. -/
def storeC5 : String → Option (List Frame) := fun w =>
  if w = "w1" then some [fa] else if w = "w2" then some [] else none

/-- A quit signal that is never raised. -/
def quitNever : ℕ → Bool := fun _ => false

/-- A quit signal that is always raised. -/
def quitAlways : ℕ → Bool := fun _ => true

/-- The five frames of the "hello" clip. -/
def helloFrames : List Frame :=
  [[("p", [Point.mk 0 0 0])], [("p", [Point.mk 1 0 0])],
   [("p", [Point.mk 2 0 0])], [("p", [Point.mk 3 0 0])],
   [("p", [Point.mk 4 0 0])]]

/-- The five frames of the "sea" clip. -/
def seaFrames : List Frame :=
  [[("p", [Point.mk 10 0 0])], [("p", [Point.mk 11 0 0])],
   [("p", [Point.mk 12 0 0])], [("p", [Point.mk 13 0 0])],
   [("p", [Point.mk 14 0 0])]]

/-- Store holding the two five-frame clips of the end-to-end run. -/
def storeC6 : String → Option (List Frame) := fun w =>
  if w = "hello" then some helloFrames
  else if w = "sea" then some seaFrames
  else none

/-! ## Lemmas about the interpolator -/

/-- Lerp at factor 0 returns the first point. -/
lemma lerpPoint_zero (a b : Point) : lerpPoint a b 0 = a := by
  simp [lerpPoint]

/-- Lerp at factor 1 returns the second point. -/
lemma lerpPoint_one (a b : Point) : lerpPoint a b 1 = b := by
  cases a; cases b
  simp only [lerpPoint, Point.mk.injEq]
  refine ⟨by ring, by ring, by ring⟩

/-- What `calculate_smooth_frame` stores under each of the four body
tags: the snap branch when a side is empty, the zipped lerp
otherwise. -/
lemma frameGet_smooth (A B : Frame) (t : ℚ) (k : String)
    (hk : k ∈ bodyTags) :
    frameGet (calculate_smooth_frame A B t) k =
      if (frameGet A k).isEmpty || (frameGet B k).isEmpty then
        (if (frameGet B k).isEmpty then frameGet A k else frameGet B k)
      else
        ((frameGet A k).zip (frameGet B k)).map
          (fun pq => lerpPoint pq.1 pq.2 t) := by
  simp only [bodyTags, List.mem_cons, List.not_mem_nil, or_false] at hk
  rcases hk with rfl | rfl | rfl | rfl <;> rfl

/-- Keys outside the fixed four-tag list are never in the output of
`calculate_smooth_frame`. -/
lemma frameGet_smooth_notMem (A B : Frame) (t : ℚ) (k : String)
    (hk : k ∉ bodyTags) :
    frameGet (calculate_smooth_frame A B t) k = [] := by
  simp only [bodyTags, List.mem_cons, List.not_mem_nil, or_false,
    not_or] at hk
  obtain ⟨h1, h2, h3, h4⟩ := hk
  have b1 : ("f" == k) = false := by simp [Ne.symm h1]
  have b2 : ("p" == k) = false := by simp [Ne.symm h2]
  have b3 : ("l" == k) = false := by simp [Ne.symm h3]
  have b4 : ("r" == k) = false := by simp [Ne.symm h4]
  simp [calculate_smooth_frame, frameGet, bodyTags, List.find?,
    b1, b2, b3, b4]

/-- Mapping first components over a zip of equally long lists gives
back the first list. -/
lemma zip_map_fst (a b : List Point) (h : a.length ≤ b.length) :
    (a.zip b).map (fun pq : Point × Point => pq.1) = a :=
  List.map_fst_zip a b h

/-- Mapping second components over a zip gives back the second list
when it is the shorter one. -/
lemma zip_map_snd (a b : List Point) (h : b.length ≤ a.length) :
    (a.zip b).map (fun pq : Point × Point => pq.2) = b :=
  List.map_snd_zip a b h

/-- Indexing a mapped zip: positional pairing, `none` past the shorter
list. -/
lemma get_zip_map (f : Point → Point → Point) (a b : List Point)
    (i : ℕ) :
    ((a.zip b).map (fun pq => f pq.1 pq.2)).get? i =
      Option.bind (a.get? i)
        (fun p => Option.map (f p) (b.get? i)) := by
  induction a generalizing b i with
  | nil => simp
  | cons x xs ih =>
    cases b with
    | nil => simp
    | cons y ys =>
      cases i with
      | zero => simp
      | succ j => simpa using ih ys j

/-- At factor 0 each tag of the blend equals the first frame's data,
given equal point counts for that tag. -/
lemma blend_zero_matches (A B : Frame)
    (hlen : ∀ k ∈ bodyTags, (frameGet A k).length = (frameGet B k).length)
    (k : String) (hk : k ∈ bodyTags) :
    frameGet (calculate_smooth_frame A B 0) k = frameGet A k := by
  have h := hlen k hk
  rw [frameGet_smooth A B 0 k hk]
  by_cases hb : frameGet B k = []
  · have ha : frameGet A k = [] := by
      refine List.length_eq_zero.mp ?_
      rw [h, hb]
      rfl
    simp [ha, hb]
  · by_cases ha : frameGet A k = []
    · refine absurd (List.length_eq_zero.mp ?_) hb
      rw [← h, ha]
      rfl
    · have ca : (frameGet A k).isEmpty = false := by
        simp [List.isEmpty_iff, ha]
      have cb : (frameGet B k).isEmpty = false := by
        simp [List.isEmpty_iff, hb]
      rw [ca, cb]
      simp only [Bool.or_self, Bool.false_eq_true, if_false]
      rw [show (fun pq : Point × Point => lerpPoint pq.1 pq.2 (0 : ℚ))
            = (fun pq : Point × Point => pq.1) from
          funext fun pq => lerpPoint_zero pq.1 pq.2]
      exact zip_map_fst _ _ h.le

/-- At factor 1 each tag of the blend equals the second frame's data,
given equal point counts for that tag. -/
lemma blend_one_matches (A B : Frame)
    (hlen : ∀ k ∈ bodyTags, (frameGet A k).length = (frameGet B k).length)
    (k : String) (hk : k ∈ bodyTags) :
    frameGet (calculate_smooth_frame A B 1) k = frameGet B k := by
  have h := hlen k hk
  rw [frameGet_smooth A B 1 k hk]
  by_cases hb : frameGet B k = []
  · have ha : frameGet A k = [] := by
      refine List.length_eq_zero.mp ?_
      rw [h, hb]
      rfl
    simp [ha, hb]
  · by_cases ha : frameGet A k = []
    · refine absurd (List.length_eq_zero.mp ?_) hb
      rw [← h, ha]
      rfl
    · have ca : (frameGet A k).isEmpty = false := by
        simp [List.isEmpty_iff, ha]
      have cb : (frameGet B k).isEmpty = false := by
        simp [List.isEmpty_iff, hb]
      rw [ca, cb]
      simp only [Bool.or_self, Bool.false_eq_true, if_false]
      rw [show (fun pq : Point × Point => lerpPoint pq.1 pq.2 (1 : ℚ))
            = (fun pq : Point × Point => pq.2) from
          funext fun pq => lerpPoint_one pq.1 pq.2]
      exact zip_map_snd _ _ h.ge

/-! ## Claim theorems about the interpolator -/

/-- C1: for frames A and B whose tags have matching point counts,
`calculate_smooth_frame` at factor 0 reproduces A's data for every
body tag and at factor 1 reproduces B's data. -/
theorem blend_endpoints_match_shape (A B : Frame)
    (hlen : ∀ k ∈ bodyTags, (frameGet A k).length = (frameGet B k).length) :
    ∀ k ∈ bodyTags,
      frameGet (calculate_smooth_frame A B 0) k = frameGet A k ∧
      frameGet (calculate_smooth_frame A B 1) k = frameGet B k :=
  fun k hk =>
    ⟨blend_zero_matches A B hlen k hk, blend_one_matches A B hlen k hk⟩

/-- C1 witness: the endpoint property evaluated on two concrete
one-point face frames. -/
theorem blend_endpoints_match_shape_witness :
    frameGet (calculate_smooth_frame
      [("f", [Point.mk 0 0 0])] [("f", [Point.mk 1 1 1])] 0) "f"
        = frameGet [("f", [Point.mk 0 0 0])] "f" ∧
    frameGet (calculate_smooth_frame
      [("f", [Point.mk 0 0 0])] [("f", [Point.mk 1 1 1])] 1) "f"
        = frameGet [("f", [Point.mk 1 1 1])] "f" :=
  blend_endpoints_match_shape
    [("f", [Point.mk 0 0 0])] [("f", [Point.mk 1 1 1])]
    (by decide) "f" (by decide)

/-- C2 counterexample: with tag "r" absent in A and non-empty in B,
the blend at factor 0 already carries B's "r" data — it is not
absent/empty at t = 0 as the claim states. -/
theorem snap_at_zero_counterexample :
    frameGet ([] : Frame) "r" = [] ∧
    frameGet ([("r", [Point.mk 1 2 3])] : Frame) "r" ≠ [] ∧
    frameGet (calculate_smooth_frame [] [("r", [Point.mk 1 2 3])] 0) "r"
      = [Point.mk 1 2 3] ∧
    frameGet (calculate_smooth_frame [] [("r", [Point.mk 1 2 3])] 0) "r"
      ≠ [] := by decide

/-- C2 amended: when tag "r" is empty in A and non-empty in B, the
blend returns B's "r" data for every factor t, including t = 0 — the
snap branch never looks at t. -/
theorem snap_policy_ignores_t (A B : Frame) (t : ℚ)
    (ha : frameGet A "r" = []) (hb : frameGet B "r" ≠ []) :
    frameGet (calculate_smooth_frame A B t) "r" = frameGet B "r" := by
  rw [frameGet_smooth A B t "r" (by decide)]
  have ca : (frameGet A "r").isEmpty = true := by simp [ha]
  have cb : (frameGet B "r").isEmpty = false := by
    simp [List.isEmpty_iff, hb]
  simp [ca, cb]

/-- C2 amended witness: the snap evaluated at t = 1/2 on concrete
frames. -/
theorem snap_policy_ignores_t_witness :
    frameGet (calculate_smooth_frame [] [("r", [Point.mk 1 2 3])]
        (1 / 2)) "r"
      = frameGet [("r", [Point.mk 1 2 3])] "r" :=
  snap_policy_ignores_t [] [("r", [Point.mk 1 2 3])] (1 / 2)
    (by decide) (by decide)

/-- C3 counterexample: bridging a one-point face frame to the empty
frame, every bridge element snaps back to the departure frame, so the
bridge does contain `from_frame`, and its last element differs from
`to_frame` at tag "f" — the bridge's last element is not "the exact
to_frame" in general. -/
theorem bridge_contains_from_counterexample :
    frameC3 ∈ generate_bridge frameC3 ([] : Frame) ∧
    (generate_bridge frameC3 ([] : Frame)).getLast? = some frameC3 ∧
    frameGet frameC3 "f" ≠ frameGet ([] : Frame) "f" := by decide

/-- C3 amended: the bridge is exactly ten frames, the k-th (1-indexed)
equal to the blend at factor k/10 (so the factor 0 is never used); its
last element is the blend at factor 1, which reproduces `to_frame`'s
data for every body tag when the two frames have matching point
counts. -/
theorem bridge_structure (A B : Frame) :
    (generate_bridge A B).length = 10 ∧
    (∀ k : ℕ, 1 ≤ k → k ≤ 10 →
      (generate_bridge A B).get? (k - 1)
        = some (calculate_smooth_frame A B ((k : ℚ) / 10))) ∧
    (generate_bridge A B).getLast? = some (calculate_smooth_frame A B 1) ∧
    ((∀ k ∈ bodyTags, (frameGet A k).length = (frameGet B k).length) →
      ∀ k ∈ bodyTags,
        frameGet (calculate_smooth_frame A B 1) k = frameGet B k) := by
  refine ⟨rfl, ?_, ?_, ?_⟩
  · intro k h1 h10
    interval_cases k <;> rfl
  · have hlast : (generate_bridge A B).getLast?
        = some (calculate_smooth_frame A B (((10 : ℕ) : ℚ) / 10)) := rfl
    rw [hlast]
    norm_num
  · intro hlen k hk
    exact blend_one_matches A B hlen k hk

/-- C3 amended witness: the bridge structure evaluated on two concrete
matching frames, at index k = 10. -/
theorem bridge_structure_witness :
    (generate_bridge [("f", [Point.mk 0 0 0])]
        [("f", [Point.mk 1 1 1])]).get? 9
      = some (calculate_smooth_frame [("f", [Point.mk 0 0 0])]
          [("f", [Point.mk 1 1 1])] ((10 : ℚ) / 10)) ∧
    frameGet (calculate_smooth_frame [("f", [Point.mk 0 0 0])]
        [("f", [Point.mk 1 1 1])] 1) "f"
      = frameGet [("f", [Point.mk 1 1 1])] "f" :=
  ⟨(bridge_structure [("f", [Point.mk 0 0 0])]
      [("f", [Point.mk 1 1 1])]).2.1 10 (by decide) (by decide),
   (bridge_structure [("f", [Point.mk 0 0 0])]
      [("f", [Point.mk 1 1 1])]).2.2.2 (by decide) "f" (by decide)⟩

/-- C8: when a tag is non-empty in both frames, the blended tag is the
positional zip of the two point lists, lerped pairwise; its length is
the minimum of the two lengths, and indexing past the shorter list
gives nothing — the longer list's tail is discarded. -/
theorem mismatched_lengths_truncate (A B : Frame) (t : ℚ) (k : String)
    (hk : k ∈ bodyTags) (ha : frameGet A k ≠ []) (hb : frameGet B k ≠ []) :
    frameGet (calculate_smooth_frame A B t) k
        = ((frameGet A k).zip (frameGet B k)).map
            (fun pq => lerpPoint pq.1 pq.2 t) ∧
    (frameGet (calculate_smooth_frame A B t) k).length
        = min (frameGet A k).length (frameGet B k).length ∧
    ∀ i, (frameGet (calculate_smooth_frame A B t) k).get? i
        = Option.bind ((frameGet A k).get? i)
            (fun p => Option.map (fun q => lerpPoint p q t)
              ((frameGet B k).get? i)) := by
  have ca : (frameGet A k).isEmpty = false := by
    simp [List.isEmpty_iff, ha]
  have cb : (frameGet B k).isEmpty = false := by
    simp [List.isEmpty_iff, hb]
  have main : frameGet (calculate_smooth_frame A B t) k
      = ((frameGet A k).zip (frameGet B k)).map
          (fun pq => lerpPoint pq.1 pq.2 t) := by
    rw [frameGet_smooth A B t k hk]
    simp [ca, cb]
  refine ⟨main, ?_, ?_⟩
  · rw [main]
    simp [List.length_zip]
  · intro i
    rw [main]
    exact get_zip_map (fun p q => lerpPoint p q t) _ _ i

/-- C8 witness: a two-point list against a one-point list truncates to
length one. -/
theorem mismatched_lengths_truncate_witness :
    (frameGet (calculate_smooth_frame
        [("l", [Point.mk 0 0 0, Point.mk 1 1 1])]
        [("l", [Point.mk 2 2 2])] (1 / 2)) "l").length = 1 :=
  ((mismatched_lengths_truncate
      [("l", [Point.mk 0 0 0, Point.mk 1 1 1])]
      [("l", [Point.mk 2 2 2])] (1 / 2) "l"
      (by decide) (by decide) (by decide)).2.1).trans (by decide)

/-- C10: the blend's output holds exactly the four body tags as keys,
in order, and any other tag — even one present in an input frame — is
absent from the output. -/
theorem blend_fixed_tags (A B : Frame) (t : ℚ) :
    (calculate_smooth_frame A B t).map Prod.fst = bodyTags ∧
    ∀ k, k ∉ bodyTags → frameGet (calculate_smooth_frame A B t) k = [] :=
  ⟨rfl, fun k hk => frameGet_smooth_notMem A B t k hk⟩

/-- C10 witness: an unknown tag "x" present in the input is dropped
from the output, whose key list is exactly the four body tags. -/
theorem blend_fixed_tags_witness :
    (calculate_smooth_frame [("x", [Point.mk 1 1 1])] [] 0).map Prod.fst
      = bodyTags ∧
    frameGet (calculate_smooth_frame [("x", [Point.mk 1 1 1])] [] 0) "x"
      = [] :=
  ⟨(blend_fixed_tags [("x", [Point.mk 1 1 1])] [] 0).1,
   (blend_fixed_tags [("x", [Point.mk 1 1 1])] [] 0).2 "x" (by decide)⟩

/-! ## Lemmas about the playback scheduler -/

/-- A playback loop during which the quit signal is never observed
emits every frame with its label, leaves the last emitted frame as
`last_frame_data`, and advances the emission clock by the clip
length. -/
lemma playClip_noQuit (quit : ℕ → Bool) (label : String) :
    ∀ (frames : List Frame) (last : Option Frame) (n : ℕ),
      (∀ m, m < frames.length → quit (n + m) = false) →
      (playClip quit label frames last n).emissions
          = frames.map (fun f => (f, label)) ∧
      (playClip quit label frames last n).lastFrame
          = (if frames.isEmpty then last else frames.getLast?) ∧
      (playClip quit label frames last n).time = n + frames.length ∧
      (playClip quit label frames last n).cancelled = false := by
  intro frames
  induction frames with
  | nil =>
    intro last n h
    simp [playClip]
  | cons fr rest ih =>
    intro last n h
    have h0 : quit n = false := by simpa using h 0 (by simp)
    have h' : ∀ m, m < rest.length → quit (n + 1 + m) = false := by
      intro m hm
      have := h (m + 1) (by simp; omega)
      rwa [show n + (m + 1) = n + 1 + m by omega] at this
    obtain ⟨e1, e2, e3, e4⟩ := ih (some fr) (n + 1) h'
    refine ⟨?_, ?_, ?_, ?_⟩
    · simp [playClip, h0, e1]
    · simp only [playClip, h0, Bool.false_eq_true, if_false]
      rw [e2]
      cases rest with
      | nil => simp
      | cons y ys => simp
    · simp only [playClip, h0, Bool.false_eq_true, if_false]
      rw [e3]
      simp
      omega
    · simp [playClip, h0, e4]

/-- If the quit signal is first observed at the j-th frame of a
playback loop, exactly the first j+1 frames are emitted and the loop
reports cancellation. -/
lemma playClip_quitAt (quit : ℕ → Bool) (label : String) :
    ∀ (frames : List Frame) (last : Option Frame) (n j : ℕ),
      j < frames.length →
      (∀ m, m < j → quit (n + m) = false) →
      quit (n + j) = true →
      (playClip quit label frames last n).emissions
          = (frames.take (j + 1)).map (fun f => (f, label)) ∧
      (playClip quit label frames last n).cancelled = true := by
  intro frames
  induction frames with
  | nil =>
    intro last n j hj
    simp at hj
  | cons fr rest ih =>
    intro last n j hj hb hq
    cases j with
    | zero =>
      have h0 : quit n = true := by simpa using hq
      simp [playClip, h0]
    | succ j' =>
      have h0 : quit n = false := by simpa using hb 0 (Nat.succ_pos j')
      have hb' : ∀ m, m < j' → quit (n + 1 + m) = false := by
        intro m hm
        have := hb (m + 1) (by omega)
        rwa [show n + (m + 1) = n + 1 + m by omega] at this
      have hq' : quit (n + 1 + j') = true := by
        rwa [show n + (j' + 1) = n + 1 + j' by omega] at hq
      have hrec := ih (some fr) (n + 1) j'
        (by simpa using Nat.lt_of_succ_lt_succ hj) hb' hq'
      simp [playClip, h0, hrec.1, hrec.2]

/-- The first emission of a playback loop over a non-empty clip is the
clip's first frame, whatever the quit signal does. -/
lemma playClip_cons_head (quit : ℕ → Bool) (label : String)
    (f0 : Frame) (fs : List Frame) (last : Option Frame) (n : ℕ) :
    ∃ tail, (playClip quit label (f0 :: fs) last n).emissions
      = (f0, label) :: tail := by
  by_cases hq : quit n = true
  · exact ⟨[], by simp [playClip, hq]⟩
  · refine ⟨(playClip quit label fs (some f0) (n + 1)).emissions, ?_⟩
    simp only [playClip, Bool.not_eq_true] at hq ⊢
    simp [hq]

/-- Words whose asset is missing are skipped: they add one diagnostic
each and change nothing else — not the emissions, the last frame, the
clock, or the outcome. -/
lemma playWords_skip_notFound (store : String → Option (List Frame))
    (quit : ℕ → Bool) :
    ∀ (ws tail : List String) (last : Option Frame) (n : ℕ),
      (∀ u ∈ ws, store u = none) →
      playWords store quit (ws ++ tail) last n
        = ⟨(playWords store quit tail last n).emissions,
           ws.map notFoundMsg
             ++ (playWords store quit tail last n).errors,
           (playWords store quit tail last n).outcome⟩ := by
  intro ws
  induction ws with
  | nil =>
    intro tail last n h
    simp
  | cons u us ih =>
    intro tail last n h
    have hu : store u = none := h u (by simp)
    have hc : (u :: us) ++ tail = u :: (us ++ tail) := rfl
    rw [hc]
    simp only [playWords, hu]
    rw [ih tail last n (fun v hv => h v (by simp [hv]))]
    simp

/-! ## Claim theorems about the playback scheduler -/

/-- C4 counterexample: the quit signal is raised from emission index 1
onward — during the first transition frame of the "a" → "b" bridge —
yet the session emits all ten transition frames and one playback frame
(12 emissions in total, not 2), because no quit check happens during
transitions. -/
theorem transition_quit_ignored_counterexample :
    quitC4 1 = true ∧
    ((play_sentence storeC4 quitC4 ["a", "b"]).emissions.get? 1).map
        Prod.snd = some "Transitioning..." ∧
    2 < (play_sentence storeC4 quitC4 ["a", "b"]).emissions.length ∧
    (play_sentence storeC4 quitC4 ["a", "b"]).emissions.length = 12 := by
  decide

/-- C4 amended: the quit signal is polled only after playback frames.
When it is observed at the j-th playback frame of a word, the session
returns at once: only the first j+1 frames of that word are emitted,
the outcome is cancelled, and the remaining playlist words are never
consulted. -/
theorem playback_quit_halts (store : String → Option (List Frame))
    (quit : ℕ → Bool) (word : String) (rest rest' : List String)
    (seq : List Frame) (j n : ℕ)
    (hs : store word = some seq) (hj : j < seq.length)
    (hb : ∀ m, m < j → quit (n + m) = false)
    (hq : quit (n + j) = true) :
    (playWords store quit (word :: rest) none n).outcome
        = PlayOutcome.cancelled ∧
    (playWords store quit (word :: rest) none n).emissions
        = (seq.take (j + 1)).map
            (fun f => (f, "Signing: " ++ strUpper word)) ∧
    playWords store quit (word :: rest) none n
        = playWords store quit (word :: rest') none n := by
  have hc := playClip_quitAt quit ("Signing: " ++ strUpper word)
    seq none n j hj hb hq
  refine ⟨?_, ?_, ?_⟩ <;>
    simp [playWords, hs, hc.1, hc.2]

/-- C4 amended witness: with the quit signal permanently raised, the
session stops after the first playback frame of "a"; the rest of the
playlist does not matter. -/
theorem playback_quit_halts_witness :
    (playWords storeC4 quitAlways ["a", "b"] none 0).outcome
        = PlayOutcome.cancelled ∧
    (playWords storeC4 quitAlways ["a", "b"] none 0).emissions
        = [(fa, "Signing: A")] ∧
    playWords storeC4 quitAlways ["a", "b"] none 0
        = playWords storeC4 quitAlways ["a", "c"] none 0 :=
  ⟨(playback_quit_halts storeC4 quitAlways "a" ["b"] ["c"] [fa] 0 0
      (by decide) (by decide)
      (fun m hm => absurd hm (Nat.not_lt_zero m)) (by decide)).1,
   ((playback_quit_halts storeC4 quitAlways "a" ["b"] ["c"] [fa] 0 0
      (by decide) (by decide)
      (fun m hm => absurd hm (Nat.not_lt_zero m)) (by decide)).2.1).trans
     (by decide),
   (playback_quit_halts storeC4 quitAlways "a" ["b"] ["c"] [fa] 0 0
      (by decide) (by decide)
      (fun m hm => absurd hm (Nat.not_lt_zero m)) (by decide)).2.2⟩

/-- C5 counterexample: word "w2" decodes to zero frames after "w1" has
played; the session does not skip it with a diagnostic — it crashes
(IndexError on `animation_sequence[0]`) and prints no diagnostic at
all. -/
theorem empty_sequence_crash_counterexample :
    (play_sentence storeC5 quitNever ["w1", "w2"]).outcome
        = PlayOutcome.crash ∧
    (play_sentence storeC5 quitNever ["w1", "w2"]).errors = [] := by
  decide

/-- C5 amended: a zero-frame sequence is not treated like a not-found
word. With no prior frame the word silently contributes nothing (no
diagnostic) and the session continues; with a prior frame the session
crashes on `animation_sequence[0]` before emitting anything
further. -/
theorem empty_sequence_behavior (store : String → Option (List Frame))
    (quit : ℕ → Bool) (word : String) (rest : List String)
    (lf : Frame) (n : ℕ) (hs : store word = some []) :
    playWords store quit (word :: rest) none n
        = playWords store quit rest none n ∧
    playWords store quit (word :: rest) (some lf) n
        = ⟨[], [], PlayOutcome.crash⟩ := by
  constructor
  · simp [playWords, hs, playClip]
  · simp [playWords, hs]

/-- C5 amended witness: both behaviors evaluated on the concrete
store. -/
theorem empty_sequence_behavior_witness :
    playWords storeC5 quitNever ["w2", "w1"] none 0
        = playWords storeC5 quitNever ["w1"] none 0 ∧
    playWords storeC5 quitNever ["w2"] (some fa) 5
        = ⟨[], [], PlayOutcome.crash⟩ :=
  ⟨(empty_sequence_behavior storeC5 quitNever "w2" ["w1"] fa 0
      (by decide)).1,
   (empty_sequence_behavior storeC5 quitNever "w2" [] fa 5
      (by decide)).2⟩

/-- C6: the playlist ["hello", "sea"], both clips five frames long and
no cancellation, emits exactly the five "hello" frames labelled
"Signing: HELLO", then the ten bridge frames from hello's fifth frame
to sea's first frame labelled "Transitioning...", then the five "sea"
frames labelled "Signing: SEA" — 20 emissions, no diagnostics, normal
completion. -/
theorem two_word_emission_trace :
    (play_sentence storeC6 quitNever ["hello", "sea"]).emissions
        = helloFrames.map (fun fr => (fr, "Signing: HELLO"))
          ++ (generate_bridge [("p", [Point.mk 4 0 0])]
                [("p", [Point.mk 10 0 0])]).map
              (fun fr => (fr, "Transitioning..."))
          ++ seaFrames.map (fun fr => (fr, "Signing: SEA")) ∧
    (play_sentence storeC6 quitNever ["hello", "sea"]).emissions.length
        = 20 ∧
    (play_sentence storeC6 quitNever ["hello", "sea"]).errors = [] ∧
    (play_sentence storeC6 quitNever ["hello", "sea"]).outcome
        = PlayOutcome.done :=
  ⟨rfl, by decide, by decide, by decide⟩

/-- C7: words whose asset is missing leave no prior frame behind, so
the first successfully loaded word of a playlist plays with no bridge:
its emissions are those of the playlist without the missing words, the
very first emission is the clip's own first frame with the word's
label, and each skipped word only adds its diagnostic. -/
theorem first_word_no_bridge (store : String → Option (List Frame))
    (quit : ℕ → Bool) (ws : List String) (w : String)
    (rest : List String) (n : ℕ) (f0 : Frame) (fs : List Frame)
    (hws : ∀ u ∈ ws, store u = none) (hw : store w = some (f0 :: fs)) :
    (playWords store quit (ws ++ w :: rest) none n).emissions
        = (playWords store quit (w :: rest) none n).emissions ∧
    (playWords store quit (ws ++ w :: rest) none n).emissions.head?
        = some (f0, "Signing: " ++ strUpper w) ∧
    (playWords store quit (ws ++ w :: rest) none n).errors
        = ws.map notFoundMsg
          ++ (playWords store quit (w :: rest) none n).errors := by
  have hskip := playWords_skip_notFound store quit ws (w :: rest) none n hws
  refine ⟨by rw [hskip], ?_, by rw [hskip]⟩
  rw [hskip]
  rcases playClip_cons_head quit ("Signing: " ++ strUpper w) f0 fs none n
    with ⟨tail, htail⟩
  cases hc : (playClip quit ("Signing: " ++ strUpper w)
      (f0 :: fs) none n).cancelled
  · simp [playWords, hw, hc, htail]
  · simp [playWords, hw, hc, htail]

/-- C7 witness: the playlist ["missing", "hello"], where "missing" has
no asset, starts directly at hello's first frame and surfaces one
diagnostic. -/
theorem first_word_no_bridge_witness :
    (playWords storeC6 quitNever (["missing"] ++ ["hello"]) none
        0).emissions.head?
      = some ([("p", [Point.mk 0 0 0])], "Signing: HELLO") ∧
    (playWords storeC6 quitNever (["missing"] ++ ["hello"]) none 0).errors
      = ["[ERROR] File not found: assets/missing.json. Skipping."] :=
  ⟨((first_word_no_bridge storeC6 quitNever ["missing"] "hello" [] 0
      [("p", [Point.mk 0 0 0])] helloFrames.tail
      (by decide) (by decide)).2.1).trans (by decide),
   ((first_word_no_bridge storeC6 quitNever ["missing"] "hello" [] 0
      [("p", [Point.mk 0 0 0])] helloFrames.tail
      (by decide) (by decide)).2.2).trans (by decide)⟩

/-- C9: (i) a playback loop that runs to completion (no cancellation)
leaves `last_frame_data` equal to the clip's true final frame; (ii) in
a two-word session with no cancellation, the transition emitted
between the words is exactly the bridge from the first clip's final
frame to the second clip's first frame. -/
theorem last_frame_invariant :
    (∀ (quit : ℕ → Bool) (label : String) (frames : List Frame)
        (last : Option Frame) (n : ℕ),
      frames ≠ [] →
      (playClip quit label frames last n).cancelled = false →
      (playClip quit label frames last n).lastFrame
        = frames.getLast?) ∧
    (∀ (store : String → Option (List Frame)) (quit : ℕ → Bool)
        (w1 w2 : String) (a : Frame) (as : List Frame) (b : Frame)
        (bs : List Frame) (n : ℕ),
      store w1 = some (a :: as) → store w2 = some (b :: bs) →
      (∀ m, quit m = false) →
      (playWords store quit [w1, w2] none n).emissions
        = ((a :: as).map (fun fr => (fr, "Signing: " ++ strUpper w1)))
          ++ ((generate_bridge
                ((a :: as).getLast (List.cons_ne_nil a as)) b).map
              (fun fr => (fr, "Transitioning...")))
          ++ ((b :: bs).map
              (fun fr => (fr, "Signing: " ++ strUpper w2)))) := by
  constructor
  · intro quit label frames
    induction frames with
    | nil =>
      intro last n h
      exact absurd rfl h
    | cons fr rest ih =>
      intro last n _ hc
      by_cases hq : quit n = true
      · simp [playClip, hq] at hc
      · have hq' : quit n = false := by simpa using hq
        cases rest with
        | nil => simp [playClip, hq']
        | cons y ys =>
          have hc' : (playClip quit label (y :: ys) (some fr)
              (n + 1)).cancelled = false := by
            simpa [playClip, hq'] using hc
          have hlast := ih (some fr) (n + 1) (List.cons_ne_nil y ys) hc'
          have step : (playClip quit label (fr :: y :: ys) last n).lastFrame
              = (playClip quit label (y :: ys) (some fr)
                  (n + 1)).lastFrame := by
            conv_lhs => rw [playClip]
            simp [hq']
          rw [step, hlast, List.getLast?_cons_cons]
  · intro store quit w1 w2 a as b bs n h1 h2 hq
    obtain ⟨e1, e2, e3, e4⟩ := playClip_noQuit quit
      ("Signing: " ++ strUpper w1) (a :: as) none n (fun m _ => hq _)
    have hlast : (a :: as).getLast?
        = some ((a :: as).getLast (List.cons_ne_nil a as)) :=
      List.getLast?_eq_getLast _ _
    simp only [playWords, h1, e4, Bool.false_eq_true, if_false]
    rw [e1, e2, e3]
    simp only [List.isEmpty_cons, Bool.false_eq_true, if_false, hlast]
    obtain ⟨f1, f2, f3, f4⟩ := playClip_noQuit quit
      ("Signing: " ++ strUpper w2) (b :: bs)
      (some ((a :: as).getLast (List.cons_ne_nil a as)))
      (n + (a :: as).length + 10) (fun m _ => hq _)
    simp only [playWords, h2, f4, Bool.false_eq_true, if_false]
    rw [f1]
    simp [List.append_assoc]

/-- C9 witness: both parts evaluated on the concrete two-clip store —
the completed hello clip leaves its fifth frame as the last frame, and
the emitted bridge runs from that frame to sea's first frame. -/
theorem last_frame_invariant_witness :
    (playClip quitNever "Signing: HELLO" helloFrames none 0).lastFrame
        = helloFrames.getLast? ∧
    (playWords storeC6 quitNever ["hello", "sea"] none 0).emissions
        = (([("p", [Point.mk 0 0 0])] ::
              [[("p", [Point.mk 1 0 0])], [("p", [Point.mk 2 0 0])],
               [("p", [Point.mk 3 0 0])], [("p", [Point.mk 4 0 0])]]).map
            (fun fr => (fr, "Signing: " ++ strUpper "hello")))
          ++ ((generate_bridge
                (([("p", [Point.mk 0 0 0])] ::
                  [[("p", [Point.mk 1 0 0])], [("p", [Point.mk 2 0 0])],
                   [("p", [Point.mk 3 0 0])],
                   [("p", [Point.mk 4 0 0])]]).getLast
                  (List.cons_ne_nil _ _))
                [("p", [Point.mk 10 0 0])]).map
              (fun fr => (fr, "Transitioning...")))
          ++ (([("p", [Point.mk 10 0 0])] ::
              [[("p", [Point.mk 11 0 0])], [("p", [Point.mk 12 0 0])],
               [("p", [Point.mk 13 0 0])], [("p", [Point.mk 14 0 0])]]).map
            (fun fr => (fr, "Signing: " ++ strUpper "sea"))) :=
  ⟨last_frame_invariant.1 quitNever "Signing: HELLO" helloFrames none 0
      (by decide) (by decide),
   last_frame_invariant.2 storeC6 quitNever "hello" "sea"
      [("p", [Point.mk 0 0 0])]
      [[("p", [Point.mk 1 0 0])], [("p", [Point.mk 2 0 0])],
       [("p", [Point.mk 3 0 0])], [("p", [Point.mk 4 0 0])]]
      [("p", [Point.mk 10 0 0])]
      [[("p", [Point.mk 11 0 0])], [("p", [Point.mk 12 0 0])],
       [("p", [Point.mk 13 0 0])], [("p", [Point.mk 14 0 0])]]
      0 (by decide) (by decide) (fun m => rfl)⟩
